import Mathlib

/-!
Verification of the request-dispatch and transport-adaptation layer of the
Readwise MCP server (`src/server.ts`).

The embedding models JavaScript runtime values as a JSON-like inductive type
`JValue`, together with the JS notions the dispatcher relies on: truthiness,
`typeof`, property lookup, object spread, `JSON.stringify` and `String()`
coercion.  The dispatcher (`validateMCPRequest`, `handleMCPRequest`,
`handleToolCall`, `handlePromptCall`), the stdio data handler, the auth
middleware and the `POST /messages` handler are translated function by
function from the source.  Callback-style code is modelled by collecting the
sequence of responses a handler emits; asynchronous tool execution is
modelled by giving each registered operation a total outcome function
(fulfilled with a value, or rejected with a thrown JS value).
-/

namespace ReadwiseMCP

/-- JavaScript runtime values as they occur in this layer: JSON values.
`null` also stands for `undefined` where the source only distinguishes the
two via truthiness and property presence (which the model tracks
separately through `Option`). -/
inductive JValue where
  | null
  | bool (b : Bool)
  | num (n : Int)
  | str (s : String)
  | arr (elems : List JValue)
  | obj (fields : List (String × JValue))
deriving Repr

namespace JValue

/-- JS truthiness of a value (`if (x)`): `null`, `false`, `0` and the empty
string are falsy; arrays and objects are always truthy. -/
def truthy : JValue → Bool
  | .null => false
  | .bool b => b
  | .num n => n ≠ 0
  | .str s => s ≠ ""
  | .arr _ => true
  | .obj _ => true

/-- JS `typeof` restricted to the values of the model; note
`typeof null === 'object'` and arrays are objects. -/
def jsTypeof : JValue → String
  | .null => "object"
  | .bool _ => "boolean"
  | .num _ => "number"
  | .str _ => "string"
  | .arr _ => "object"
  | .obj _ => "object"

/-- Property lookup `v[k]`: `some` when the key is present on an object,
`none` (i.e. `undefined`) otherwise.  Array index/length properties are not
needed by the dispatcher and are not modelled. -/
def getField : JValue → String → Option JValue
  | .obj fields, k => fields.lookup k
  | _, _ => none

/-- `k in v` for objects (the `'type' in request` checks). -/
def hasField (v : JValue) (k : String) : Bool :=
  (v.getField k).isSome

end JValue

/-- JS `a || b` on values (used for `request_id || 'unknown'`). -/
def jsOr (a b : JValue) : JValue :=
  if a.truthy then a else b

/-- JS `a || b` where `a` is a possibly-missing string (used for
`validation.error || 'Invalid request format'`). -/
def jsOrString (a : Option String) (b : String) : String :=
  match a with
  | some s => if s = "" then b else s
  | none => b

/-- The whitespace set of JS `String.prototype.trim` as it matters here
(space, tab, line feed, carriage return, vertical tab, form feed; the
exotic Unicode space classes are outside the model). -/
def isTrimWs (c : Char) : Bool :=
  c = ' ' ∨ c = '\t' ∨ c = '\n' ∨ c = '\r' ∨ c = Char.ofNat 11 ∨ c = Char.ofNat 12

/-- JS `s.trim()`: strip leading and trailing whitespace. -/
def jsTrim (s : String) : String :=
  String.mk (((s.data.dropWhile isTrimWs).reverse.dropWhile isTrimWs).reverse)

/-- JS `s.startsWith(p)`. -/
def jsStartsWith (s p : String) : Bool :=
  String.mk (s.data.take p.data.length) == p

/-- JS strict equality `v === s` against a string literal: true only when
`v` is that exact string. -/
def jsStrictEqStr (v : JValue) (s : String) : Bool :=
  match v with
  | .str t => t = s
  | _ => false

/-- Assignment semantics of an object literal `\x7b...o, k: val\x7d`: if `k` is
already a key its value is updated in place (JS keeps the original key
position), otherwise the pair is appended at the end. -/
def setField : List (String × JValue) → String → JValue → List (String × JValue)
  | [], k, val => [(k, val)]
  | (k2, v2) :: rest, k, val =>
    if k2 = k then (k2, val) :: rest else (k2, v2) :: setField rest k val

/-- Object spread-with-override `\x7b...v, k: val\x7d`.  Spreading an array
yields an object with index keys; spreading other primitives contributes no
fields.  (In the dispatcher only the object case is reachable: pass-through
needs a truthy `content` property, which only objects have.) -/
def objSet (v : JValue) (k : String) (val : JValue) : JValue :=
  match v with
  | .obj fields => .obj (setField fields k val)
  | .arr xs => .obj (setField ((xs.enum).map fun p => (toString p.1, p.2)) k val)
  | _ => .obj [(k, val)]

/-- JSON string quoting used by `JSON.stringify` (the escapes the
dispatcher's payloads can contain; `\u` escapes of other control
characters are not modelled). -/
def jsonQuote (s : String) : String :=
  "\"" ++ String.join (s.data.map fun c =>
    if c = '"' then "\\\""
    else if c = '\\' then "\\\\"
    else if c = '\n' then "\\n"
    else if c = '\r' then "\\r"
    else if c = '\t' then "\\t"
    else String.singleton c) ++ "\""

mutual

/-- Model of `JSON.stringify` on the dispatcher's values. -/
def stringify : JValue → String
  | .null => "null"
  | .bool b => if b then "true" else "false"
  | .num n => toString n
  | .str s => jsonQuote s
  | .arr xs => "[" ++ stringifyElems xs ++ "]"
  | .obj fs => "\x7b" ++ stringifyFields fs ++ "\x7d"

def stringifyElems : List JValue → String
  | [] => ""
  | [x] => stringify x
  | x :: y :: xs => stringify x ++ "," ++ stringifyElems (y :: xs)

def stringifyFields : List (String × JValue) → String
  | [] => ""
  | [(k, v)] => jsonQuote k ++ ":" ++ stringify v
  | (k, v) :: f :: fs => jsonQuote k ++ ":" ++ stringify v ++ "," ++ stringifyFields (f :: fs)

end

mutual

/-- Model of JS `String(v)` coercion (used on `errorDetails.code` /
`errorDetails.message`). -/
def jsString : JValue → String
  | .null => "null"
  | .bool b => if b then "true" else "false"
  | .num n => toString n
  | .str s => s
  | .arr xs => jsStringJoin xs
  | .obj _ => "[object Object]"

/-- `Array.prototype.toString` joins elements with commas, rendering
`null`/`undefined` elements as empty. -/
def jsStringJoin : List JValue → String
  | [] => ""
  | [x] => jsStringItem x
  | x :: y :: xs => jsStringItem x ++ "," ++ jsStringJoin (y :: xs)

def jsStringItem : JValue → String
  | .null => ""
  | .bool b => if b then "true" else "false"
  | .num n => toString n
  | .str s => s
  | .arr xs => jsStringJoin xs
  | .obj _ => "[object Object]"

end

/-! ### Operations, registries and execution outcomes

`src/types/validation.ts` and the registry classes are outside the given
sources; their shapes are taken from how `server.ts` consumes them:
`validationResult.valid`, `validationResult.errors`, `e.field`,
`e.message`, `registry.get(name)` returning the operation or nothing. -/

/-- One reported parameter-validation error (`ValidationError`). -/
structure ValidationError where
  field : String
  message : String

/-- Verdict of an operation's `validate` method (`ValidationResult`; the
`success` mirror flag carried alongside `valid` in the source is unused by
the dispatcher and not modelled). -/
structure ValidationResult where
  valid : Bool
  errors : List ValidationError

/-- A value thrown by a rejected execution, with the pieces of JS runtime
state the catch handlers inspect: truthy-object-ness (for the
`error && typeof error === 'object'` guards), own properties (for the
`'type' in error` / `'details' in error` checks and accesses),
`instanceof Error`, and `.message` for Error instances. -/
structure Thrown where
  isObject : Bool
  fields : List (String × JValue)
  isError : Bool
  message : String

/-- Outcome of an operation's asynchronous execution: the promise either
fulfills with a value or rejects with a thrown value. -/
inductive ExecOutcome where
  | ok (result : JValue)
  | rejected (e : Thrown)

/-- A registered operation (tool or prompt) as the dispatcher consumes it:
a name, an optional `validate` method, and an execute function whose
outcome is part of the model's input.  (`handleToolCall` prefers an
`executeAsMCP` method over `execute` when one exists; both are promises of
a result and are modelled by the single outcome function.) -/
structure Operation where
  name : String
  validate : Option (JValue → ValidationResult)
  execute : JValue → ExecOutcome

/-- The server's registries, as lookup maps (`ToolRegistry.get` /
`PromptRegistry.get` per the registry contract: at most one operation per
name). -/
structure Env where
  tools : String → Option Operation
  prompts : String → Option Operation

/-! ### The dispatcher (`server.ts`) -/

/-- Result shape of `validateMCPRequest`: `\x7bvalid, error?\x7d`. -/
structure RequestValidation where
  valid : Bool
  error : Option String

/-- `typeof v === 'string' && v.trim() !== ''`: the shape the validator
requires of `name` and `request_id`. -/
def isNonBlankString (v : JValue) : Bool :=
  match v with
  | .str s => jsTrim s != ""
  | _ => false

/-- `ReadwiseMCPServer.validateMCPRequest` (server.ts:670-710), translated
check for check in source order. -/
def validateMCPRequest (request : JValue) : RequestValidation :=
  if !(request.truthy && request.jsTypeof == "object") then
    ⟨false, some "Request must be a JSON object"⟩
  else if !(request.hasField "type") then
    ⟨false, some "Missing required field: type"⟩
  else if !(request.hasField "name") then
    ⟨false, some "Missing required field: name"⟩
  else if !(request.hasField "request_id") then
    ⟨false, some "Missing required field: request_id"⟩
  else if !(jsStrictEqStr ((request.getField "type").getD .null) "tool_call"
      || jsStrictEqStr ((request.getField "type").getD .null) "prompt_call") then
    ⟨false, some ("Invalid request type: " ++ jsString ((request.getField "type").getD .null)
      ++ ". Must be 'tool_call' or 'prompt_call'")⟩
  else if !(isNonBlankString ((request.getField "name").getD .null)) then
    ⟨false, some "Invalid request name: must be a non-empty string"⟩
  else if !(isNonBlankString ((request.getField "request_id").getD .null)) then
    ⟨false, some "Invalid request_id: must be a non-empty string"⟩
  else if !(request.hasField "parameters"
      && ((request.getField "parameters").getD .null).jsTypeof == "object") then
    ⟨false, some "Missing or invalid parameters: must be an object"⟩
  else
    ⟨true, none⟩

/-- The error envelope literal used throughout the dispatcher:
`\x7berror: \x7btype, details: \x7bcode, message, errors?\x7d\x7d, request_id\x7d`. -/
def errorEnvelope (etype code message : String) (errors : Option (List String))
    (requestId : JValue) : JValue :=
  .obj [("error", .obj [("type", .str etype),
          ("details", .obj ([("code", .str code), ("message", .str message)] ++
            (match errors with
             | some es => [("errors", .arr (es.map JValue.str))]
             | none => [])))]),
        ("request_id", requestId)]

/-- The thrown `TypeError` from reading `.content` off a `null`/`undefined`
execution result inside the `.then` handler; its engine-specific message is
modelled by this fixed text. -/
def nullContentTypeError : Thrown :=
  ⟨true, [], true, "Cannot read properties of null (reading 'content')"⟩

/-- The shared `.then` logic of both call handlers (server.ts:819-825 and
905-910): duck-type the result on a truthy `content` property, else wrap it
as one text item; then merge in the request's id.  Reading `.content` off a
`null`/`undefined` result throws, which the promise chain routes into the
catch handler. -/
def resolveThen (onThrow : Thrown → JValue) (result : JValue) (requestId : JValue) : JValue :=
  match result with
  | .null => onThrow nullContentTypeError
  | _ =>
    let response :=
      if ((result.getField "content").getD .null).truthy then result
      else .obj [("content", .arr [.obj [("type", .str "text"), ("text", .str (stringify result))]])]
    objSet response "request_id" requestId

/-- The catch handler of `handleToolCall` (server.ts:826-850): remap
authentication-flagged errors to the `validation` kind, copy structured
`details.code`/`details.message` when present, else fall back to
`'tool_error'` and the error's own message text. -/
def toolCatchEnvelope (e : Thrown) (requestId : JValue) : JValue :=
  let isAuthError : Bool := e.isObject &&
    (match e.fields.lookup "type" with
     | some (.str s) => s == "authentication"
     | _ => false)
  let errorDetails : JValue :=
    if e.isObject && (e.fields.lookup "details").isSome then
      (e.fields.lookup "details").getD .null
    else .null
  let code :=
    if errorDetails.truthy && errorDetails.jsTypeof == "object" && errorDetails.hasField "code" then
      jsString ((errorDetails.getField "code").getD .null)
    else "tool_error"
  let message :=
    if errorDetails.truthy && errorDetails.jsTypeof == "object" && errorDetails.hasField "message" then
      jsString ((errorDetails.getField "message").getD .null)
    else if e.isError then e.message
    else "Unknown error"
  errorEnvelope (if isAuthError then "validation" else "execution") code message none requestId

/-- The catch handler of `handlePromptCall` (server.ts:911-924): always the
`execution` kind with code `prompt_error` and the plain message text. -/
def promptCatchEnvelope (e : Thrown) (requestId : JValue) : JValue :=
  errorEnvelope "execution" "prompt_error"
    (if e.isError then e.message else "Unknown error") none requestId

/-- `ReadwiseMCPServer.handleToolCall` (server.ts:772-851).  The callback
discipline is modelled by returning the list of responses passed to the
callback, in order. -/
def handleToolCall (env : Env) (request : JValue) : List JValue :=
  let nameV := (request.getField "name").getD .null
  let parameters := (request.getField "parameters").getD .null
  let requestId := (request.getField "request_id").getD .null
  match (match nameV with | .str s => env.tools s | _ => none) with
  | none =>
    [errorEnvelope "transport" "tool_not_found" ("Tool not found: " ++ jsString nameV)
      none requestId]
  | some tool =>
    let validationResult :=
      match tool.validate with
      | some f => f parameters
      | none => ⟨true, []⟩
    if !validationResult.valid then
      [errorEnvelope "validation" "invalid_parameters" "Invalid parameters"
        (some (validationResult.errors.map fun e => e.field ++ ": " ++ e.message)) requestId]
    else
      match tool.execute parameters with
      | .ok result => [resolveThen (toolCatchEnvelope · requestId) result requestId]
      | .rejected e => [toolCatchEnvelope e requestId]

/-- `ReadwiseMCPServer.handlePromptCall` (server.ts:858-925). -/
def handlePromptCall (env : Env) (request : JValue) : List JValue :=
  let nameV := (request.getField "name").getD .null
  let parameters := (request.getField "parameters").getD .null
  let requestId := (request.getField "request_id").getD .null
  match (match nameV with | .str s => env.prompts s | _ => none) with
  | none =>
    [errorEnvelope "transport" "prompt_not_found" ("Prompt not found: " ++ jsString nameV)
      none requestId]
  | some prompt =>
    let validationResult :=
      match prompt.validate with
      | some f => f parameters
      | none => ⟨true, []⟩
    if !validationResult.valid then
      [errorEnvelope "validation" "invalid_parameters" "Invalid parameters"
        (some (validationResult.errors.map fun e => e.field ++ ": " ++ e.message)) requestId]
    else
      match prompt.execute parameters with
      | .ok result => [resolveThen (promptCatchEnvelope · requestId) result requestId]
      | .rejected e => [promptCatchEnvelope e requestId]

/-- `ReadwiseMCPServer.handleMCPRequest` (server.ts:717-765), returning the
list of responses handed to the callback. -/
def handleMCPRequest (env : Env) (request : JValue) : List JValue :=
  let validation := validateMCPRequest request
  if !validation.valid then
    [errorEnvelope "transport" "invalid_request"
      (jsOrString validation.error "Invalid request format") none
      (jsOr ((request.getField "request_id").getD .null) (.str "unknown"))]
  else
    let requestType := (request.getField "type").getD .null
    if jsStrictEqStr requestType "tool_call" then
      handleToolCall env request
    else if jsStrictEqStr requestType "prompt_call" then
      handlePromptCall env request
    else
      [errorEnvelope "transport" "invalid_request_type"
        ("Unknown request type: " ++ jsString requestType) none
        ((request.getField "request_id").getD .null)]

/-! ### `JSON.parse` model

A fuel-indexed recursive-descent parser over the character list of the
input.  It accepts the JSON grammar the stdio transport's payloads use
(objects, arrays, strings with the common escapes, integer numbers,
booleans, null, interleaved whitespace) and, like `JSON.parse`, rejects any
input that is not exactly one JSON document.  Fractional/exponent number
literals are outside the model (the dispatcher's envelopes carry none). -/

/-- JSON insignificant whitespace. -/
def isJsonWs (c : Char) : Bool :=
  c = ' ' ∨ c = '\n' ∨ c = '\t' ∨ c = '\r'

def skipWs : List Char → List Char
  | [] => []
  | c :: cs => if isJsonWs c then skipWs cs else c :: cs

def hexVal (c : Char) : Option Nat :=
  if '0' ≤ c ∧ c ≤ '9' then some (c.toNat - 48)
  else if 'a' ≤ c ∧ c ≤ 'f' then some (c.toNat - 87)
  else if 'A' ≤ c ∧ c ≤ 'F' then some (c.toNat - 55)
  else none

/-- Body of a JSON string after the opening quote, up to the closing
quote. -/
def parseStringBody : Nat → List Char → String → Option (String × List Char)
  | 0, _, _ => none
  | _ + 1, [], _ => none
  | fuel + 1, c :: cs, acc =>
    if c = '"' then some (acc, cs)
    else if c = '\\' then
      match cs with
      | [] => none
      | e :: cs2 =>
        if e = '"' then parseStringBody fuel cs2 (acc.push '"')
        else if e = '\\' then parseStringBody fuel cs2 (acc.push '\\')
        else if e = '/' then parseStringBody fuel cs2 (acc.push '/')
        else if e = 'n' then parseStringBody fuel cs2 (acc.push '\n')
        else if e = 't' then parseStringBody fuel cs2 (acc.push '\t')
        else if e = 'r' then parseStringBody fuel cs2 (acc.push '\r')
        else if e = 'b' then parseStringBody fuel cs2 (acc.push (Char.ofNat 8))
        else if e = 'f' then parseStringBody fuel cs2 (acc.push (Char.ofNat 12))
        else if e = 'u' then
          match cs2 with
          | h1 :: h2 :: h3 :: h4 :: cs3 =>
            match hexVal h1, hexVal h2, hexVal h3, hexVal h4 with
            | some a, some b, some c2, some d =>
              parseStringBody fuel cs3 (acc.push (Char.ofNat (((a * 16 + b) * 16 + c2) * 16 + d)))
            | _, _, _, _ => none
          | _ => none
        else none
    else parseStringBody fuel cs (acc.push c)

/-- Longest digit run starting the input, as a number. -/
def takeDigits : List Char → Nat → Nat × List Char
  | [], acc => (acc, [])
  | c :: cs, acc =>
    if c.isDigit then takeDigits cs (acc * 10 + (c.toNat - 48)) else (acc, c :: cs)

/-- A (nonempty) digit run. -/
def parseNatNum (cs : List Char) : Option (Nat × List Char) :=
  match cs with
  | c :: _ => if c.isDigit then some (takeDigits cs 0) else none
  | [] => none

mutual

def parseValue : Nat → List Char → Option (JValue × List Char)
  | 0, _ => none
  | fuel + 1, cs =>
    match skipWs cs with
    | [] => none
    | c :: rest =>
      if c = '\x7b' then
        match skipWs rest with
        | '\x7d' :: rest2 => some (.obj [], rest2)
        | _ => parseObjRest fuel rest []
      else if c = '[' then
        match skipWs rest with
        | ']' :: rest2 => some (.arr [], rest2)
        | _ => parseArrRest fuel rest []
      else if c = '"' then
        (parseStringBody fuel rest "").map fun p => (.str p.1, p.2)
      else if c = 't' then
        match rest with
        | 'r' :: 'u' :: 'e' :: r => some (.bool true, r)
        | _ => none
      else if c = 'f' then
        match rest with
        | 'a' :: 'l' :: 's' :: 'e' :: r => some (.bool false, r)
        | _ => none
      else if c = 'n' then
        match rest with
        | 'u' :: 'l' :: 'l' :: r => some (.null, r)
        | _ => none
      else if c = '-' then
        (parseNatNum rest).map fun p => (.num (-(p.1 : Int)), p.2)
      else if c.isDigit then
        (parseNatNum (c :: rest)).map fun p => (.num (p.1 : Int), p.2)
      else none

/-- Fields of an object after `\x7b` (at least one field present). -/
def parseObjRest : Nat → List Char → List (String × JValue) →
    Option (JValue × List Char)
  | 0, _, _ => none
  | fuel + 1, cs, acc =>
    match skipWs cs with
    | '"' :: cs2 =>
      match parseStringBody fuel cs2 "" with
      | some (k, cs3) =>
        match skipWs cs3 with
        | ':' :: cs4 =>
          match parseValue fuel cs4 with
          | some (v, cs5) =>
            match skipWs cs5 with
            | ',' :: cs6 => parseObjRest fuel cs6 (acc ++ [(k, v)])
            | '\x7d' :: cs6 => some (.obj (acc ++ [(k, v)]), cs6)
            | _ => none
          | none => none
        | _ => none
      | none => none
    | _ => none

/-- Elements of an array after `[` (at least one element present). -/
def parseArrRest : Nat → List Char → List JValue → Option (JValue × List Char)
  | 0, _, _ => none
  | fuel + 1, cs, acc =>
    match parseValue fuel cs with
    | some (v, cs2) =>
      match skipWs cs2 with
      | ',' :: cs3 => parseArrRest fuel cs3 (acc ++ [v])
      | ']' :: cs3 => some (.arr (acc ++ [v]), cs3)
      | _ => none
    | none => none

end

/-- `JSON.parse(input)`: exactly one JSON document, with optional
surrounding whitespace; `none` models the thrown `SyntaxError`. -/
def parseJSON (s : String) : Option JValue :=
  match parseValue (s.length + 2) s.data with
  | some (v, rest) => if skipWs rest = [] then some v else none
  | none => none

/-! ### The stdio transport (`setupStdioTransport`, server.ts:626-663) -/

/-- The engine-specific `SyntaxError.message` text of a failed
`JSON.parse`; it is an `Error` instance, so the handler echoes its
`.message`, whose exact wording the claims never inspect. -/
def jsonSyntaxErrorMessage : String := "Unexpected token in JSON"

/-- The `process.stdin.on('data', ...)` handler: trim the whole delivered
chunk, ignore it when empty, otherwise parse the whole chunk as a single
JSON document and dispatch it; a parse failure writes one
`transport/invalid_request` envelope with the `'unknown'` request id.  The
returned list holds the JSON values written to stdout, one line each. -/
def stdioDataHandler (env : Env) (data : String) : List JValue :=
  let input := jsTrim data
  if input = "" then []
  else
    match parseJSON input with
    | some request => handleMCPRequest env request
    | none =>
      [errorEnvelope "transport" "invalid_request" jsonSyntaxErrorMessage none (.str "unknown")]

/-! ### Auth middleware (`createAuthMiddleware`, server.ts:410-440) -/

/-- What the middleware does with a request: hand it on (`next()`) or
answer with an error status and an `\x7berror: message\x7d` body. -/
inductive AuthOutcome where
  | next
  | reject (status : Nat) (errorMessage : String)
deriving DecidableEq, Repr

def authRequiredMessage : String :=
  "Authentication required. Provide token via Authorization: Bearer <token> header or ?token=<token> query parameter."

/-- The middleware, for a configured `authToken`.  `authorizationHeader` is
the `Authorization` header when present; `queryToken` is `?token=` when
present as a single string (the source maps a non-string query value to
`null`).  The buffer length check plus `timingSafeEqual` on equal-length
UTF-8 buffers together decide plain string equality, which is how the
comparison is modelled. -/
def createAuthMiddleware (authToken : String) (method : String)
    (authorizationHeader : Option String) (queryToken : Option String) : AuthOutcome :=
  if method = "OPTIONS" then .next
  else
    let headerToken : Option String :=
      match authorizationHeader with
      | some h => if jsStartsWith h "Bearer " then some (h.drop 7) else none
      | none => none
    -- `const token = headerToken || queryToken`
    let token : Option String :=
      match headerToken with
      | some t => if t = "" then queryToken else some t
      | none => queryToken
    match token with
    | none => .reject 401 authRequiredMessage
    | some t =>
      if t = "" then .reject 401 authRequiredMessage
      else if t = authToken then .next
      else .reject 403 "Invalid authentication token."

/-- The token a request effectively carries: the `headerToken || queryToken`
chain of the source, normalised so that a JS-falsy result (absent, or the
empty string, which the `if (!token)` guard treats as absent) is `none`. -/
def extractedToken (authorizationHeader queryToken : Option String) : Option String :=
  let headerToken : Option String :=
    match authorizationHeader with
    | some h => if jsStartsWith h "Bearer " then some (h.drop 7) else none
    | none => none
  let token : Option String :=
    match headerToken with
    | some t => if t = "" then queryToken else some t
    | none => queryToken
  match token with
  | some t => if t = "" then none else some t
  | none => none

/-! ### `POST /messages` (server.ts:1005-1063) -/

/-- Outcome of the `/messages` route: an HTTP response, or the message
being handled by the stored transport of the matching session
(`transport.handlePostMessage`). -/
inductive PostMessagesOutcome (T : Type) where
  | respond (status : Nat) (body : JValue)
  | handled (transport : T)

/-- The `POST /messages` handler over the SSE session store
(`sseTransports`), given the `sessionId` query parameter (`none` when
absent).  `req.query.sessionId` is falsy both when absent and when the
empty string, so both take the 400 branch. -/
def postMessagesHandler {T : Type} (sseTransports : String → Option T)
    (sessionIdParam : Option String) : PostMessagesOutcome T :=
  let missing : PostMessagesOutcome T :=
    .respond 400 (.obj [("error", .obj [("type", .str "validation"),
      ("details", .obj [("code", .str "missing_session_id"),
        ("message", .str "Missing required query parameter: sessionId")])])])
  match sessionIdParam with
  | none => missing
  | some s =>
    if s = "" then missing
    else
      match sseTransports s with
      | none =>
        .respond 404 (.obj [("error", .obj [("type", .str "transport"),
          ("details", .obj [("code", .str "session_not_found"),
            ("message", .str ("No active SSE connection found for sessionId: " ++ s))])])])
      | some t => .handled t

/-! ### Structural well-formedness of a request envelope -/

/-- A request envelope the validator accepts, stated structurally: a truthy
JS object carrying `type`/`name`/`request_id`/`parameters`, with `type`
exactly `tool_call` or `prompt_call`, `name` and `request_id` strings that
are non-blank after trimming, and `parameters` of JS `object` type (which
includes `null` and arrays). -/
def isWellFormedMCPRequest (request : JValue) : Bool :=
  request.truthy && request.jsTypeof == "object"
    && request.hasField "type" && request.hasField "name" && request.hasField "request_id"
    && (jsStrictEqStr ((request.getField "type").getD .null) "tool_call"
        || jsStrictEqStr ((request.getField "type").getD .null) "prompt_call")
    && isNonBlankString ((request.getField "name").getD .null)
    && isNonBlankString ((request.getField "request_id").getD .null)
    && request.hasField "parameters"
    && ((request.getField "parameters").getD .null).jsTypeof == "object"

/-! ### Response accessors (for stating claims about emitted envelopes) -/

def responseRequestId (r : JValue) : Option JValue := r.getField "request_id"

def responseErrorType (r : JValue) : Option JValue :=
  (r.getField "error").bind (·.getField "type")

def responseErrorDetails (r : JValue) : Option JValue :=
  (r.getField "error").bind (·.getField "details")

def responseErrorCode (r : JValue) : Option JValue :=
  (responseErrorDetails r).bind (·.getField "code")

def responseErrorMessage (r : JValue) : Option JValue :=
  (responseErrorDetails r).bind (·.getField "message")

def responseErrorList (r : JValue) : Option JValue :=
  (responseErrorDetails r).bind (·.getField "errors")

def responseContent (r : JValue) : Option JValue := r.getField "content"

/-- An environment with no registered tools or prompts. -/
def emptyEnv : Env := ⟨fun _ => none, fun _ => none⟩

/-! ### Shared lemmas -/

theorem responseRequestId_errorEnvelope (t c m : String) (es : Option (List String))
    (rid : JValue) : responseRequestId (errorEnvelope t c m es rid) = some rid := rfl

theorem responseErrorType_errorEnvelope (t c m : String) (es : Option (List String))
    (rid : JValue) : responseErrorType (errorEnvelope t c m es rid) = some (.str t) := rfl

theorem responseErrorCode_errorEnvelope (t c m : String) (es : Option (List String))
    (rid : JValue) : responseErrorCode (errorEnvelope t c m es rid) = some (.str c) := rfl

theorem responseErrorMessage_errorEnvelope (t c m : String) (es : Option (List String))
    (rid : JValue) : responseErrorMessage (errorEnvelope t c m es rid) = some (.str m) := rfl

theorem responseErrorList_errorEnvelope (t c m : String) (es : List String) (rid : JValue) :
    responseErrorList (errorEnvelope t c m (some es) rid) = some (.arr (es.map .str)) := rfl

theorem length_handleToolCall (env : Env) (request : JValue) :
    (handleToolCall env request).length = 1 := by
  unfold handleToolCall
  dsimp only
  split
  · rfl
  · split
    · rfl
    · split <;> rfl

theorem length_handlePromptCall (env : Env) (request : JValue) :
    (handlePromptCall env request).length = 1 := by
  unfold handlePromptCall
  dsimp only
  split
  · rfl
  · split
    · rfl
    · split <;> rfl

/-- The validator's verdict coincides with the structural well-formedness
predicate. -/
theorem validateMCPRequest_valid_eq (request : JValue) :
    (validateMCPRequest request).valid = isWellFormedMCPRequest request := by
  unfold validateMCPRequest isWellFormedMCPRequest
  cases h1 : (request.truthy && request.jsTypeof == "object") <;>
  cases h2 : request.hasField "type" <;>
  cases h3 : request.hasField "name" <;>
  cases h4 : request.hasField "request_id" <;>
  cases h5 : (jsStrictEqStr ((request.getField "type").getD .null) "tool_call"
      || jsStrictEqStr ((request.getField "type").getD .null) "prompt_call") <;>
  cases h6 : isNonBlankString ((request.getField "name").getD .null) <;>
  cases h7 : isNonBlankString ((request.getField "request_id").getD .null) <;>
  cases h8 : (request.hasField "parameters"
      && ((request.getField "parameters").getD .null).jsTypeof == "object") <;>
  simp [h1, h2, h3, h4, h5, h6, h7, h8]

/-! ### Claim C1 -/

/-- C1: for every request envelope passed to `handleMCPRequest` the response
callback is invoked exactly once — the list of responses it emits (over any
registries and any execution outcomes) always has length one, whichever
branch is taken (malformed envelope, unknown operation, failed parameter
validation, successful execution, rejected execution). -/
theorem callback_invoked_exactly_once (env : Env) (request : JValue) :
    (handleMCPRequest env request).length = 1 := by
  unfold handleMCPRequest
  dsimp only
  split
  · rfl
  · split
    · exact length_handleToolCall env request
    · split
      · exact length_handlePromptCall env request
      · rfl

/-- Requests that pass validation with `type = "tool_call"` are handed to
`handleToolCall`. -/
theorem handleMCPRequest_tool_route (env : Env) (request : JValue)
    (hwf : isWellFormedMCPRequest request = true)
    (htype : request.getField "type" = some (.str "tool_call")) :
    handleMCPRequest env request = handleToolCall env request := by
  have hv : (validateMCPRequest request).valid = true := by
    rw [validateMCPRequest_valid_eq, hwf]
  unfold handleMCPRequest
  dsimp only
  rw [hv, htype]
  rfl

/-- Requests that pass validation with `type = "prompt_call"` are handed to
`handlePromptCall`. -/
theorem handleMCPRequest_prompt_route (env : Env) (request : JValue)
    (hwf : isWellFormedMCPRequest request = true)
    (htype : request.getField "type" = some (.str "prompt_call")) :
    handleMCPRequest env request = handlePromptCall env request := by
  have hv : (validateMCPRequest request).valid = true := by
    rw [validateMCPRequest_valid_eq, hwf]
  unfold handleMCPRequest
  dsimp only
  rw [hv, htype]
  rfl

/-! ### Claim C2 -/

/-- A raw request that is not a well-formed envelope because its
`request_id`, though present, is the empty string. -/
def c2Request : JValue :=
  .obj [("type", .str "tool_call"), ("name", .str "t"),
        ("request_id", .str ""), ("parameters", .obj [])]

/-- C2 counterexample: `c2Request` carries a (present) `request_id` field
holding `""`, and `handleMCPRequest` rejects the envelope with a
`transport`/`invalid_request` error as the claim says — but the emitted
envelope's `request_id` is the sentinel `"unknown"`, not the request's own
(present) `request_id`, because the source echoes
`request.request_id || 'unknown'` and the empty string is JS-falsy. -/
theorem c2_counterexample :
    c2Request.getField "request_id" = some (.str "") ∧
    (handleMCPRequest emptyEnv c2Request).map responseErrorType = [some (.str "transport")] ∧
    (handleMCPRequest emptyEnv c2Request).map responseErrorCode = [some (.str "invalid_request")] ∧
    (handleMCPRequest emptyEnv c2Request).map responseRequestId = [some (.str "unknown")] ∧
    some (JValue.str "unknown") ≠ some (JValue.str "") := by
  refine ⟨rfl, rfl, rfl, rfl, ?_⟩
  simp

/-- C2 (amended): for every raw request value that fails the envelope
checks (not a truthy JS object, missing `type`/`name`/`request_id`/
`parameters`, `type` outside \x7btool_call, prompt_call\x7d, a non-string or
blank `name`/`request_id`, or `parameters` of non-object JS type — where
`null` and arrays count as objects), `handleMCPRequest` emits exactly one
`transport`/`invalid_request` error envelope whose `request_id` is the
request's own `request_id` when that value is present and truthy, and the
sentinel `"unknown"` otherwise. -/
theorem c2_amended_invalid_request_envelope (env : Env) (request : JValue)
    (h : isWellFormedMCPRequest request = false) :
    ∃ msg : String,
      handleMCPRequest env request =
        [errorEnvelope "transport" "invalid_request" msg none
          (jsOr ((request.getField "request_id").getD .null) (.str "unknown"))] := by
  have hv : (validateMCPRequest request).valid = false := by
    rw [validateMCPRequest_valid_eq, h]
  unfold handleMCPRequest
  dsimp only
  rw [hv]
  exact ⟨_, rfl⟩

/-- C2 witness: the amended theorem at the empty-object request (no fields
at all), whose error envelope carries the `"unknown"` sentinel. -/
theorem c2_amended_witness :
    isWellFormedMCPRequest (JValue.obj []) = false ∧
    ∃ msg : String,
      handleMCPRequest emptyEnv (JValue.obj []) =
        [errorEnvelope "transport" "invalid_request" msg none (.str "unknown")] :=
  ⟨rfl, c2_amended_invalid_request_envelope emptyEnv (JValue.obj []) rfl⟩

/-! ### Claim C3 -/

/-- A tool whose execution fulfills with `\x7bcontent: null\x7d`: a result that
carries a `content` field whose value is JS-falsy. -/
def c3Tool : Operation :=
  ⟨"t", none, fun _ => .ok (.obj [("content", .null)])⟩

def c3Env : Env :=
  ⟨fun n => if n = "t" then some c3Tool else none, fun _ => none⟩

def c3Request : JValue :=
  .obj [("type", .str "tool_call"), ("name", .str "t"),
        ("request_id", .str "r1"), ("parameters", .obj [])]

/-- C3 counterexample: the execution result `\x7bcontent: null\x7d` carries a
`content` field, so the claim predicts pass-through (envelope
`\x7bcontent: null, request_id: "r1"\x7d`); but the source tests
`result.content` for truthiness, `null` is falsy, and the result is wrapped
as a single serialized-text item instead. -/
theorem c3_counterexample :
    (JValue.obj [("content", JValue.null)]).hasField "content" = true ∧
    c3Tool.execute (JValue.obj []) = .ok (JValue.obj [("content", JValue.null)]) ∧
    handleMCPRequest c3Env c3Request =
      [JValue.obj [("content", JValue.arr [JValue.obj [("type", JValue.str "text"),
          ("text", JValue.str "\x7b\"content\":null\x7d")]]),
        ("request_id", JValue.str "r1")]] ∧
    handleMCPRequest c3Env c3Request ≠
      [JValue.obj [("content", JValue.null), ("request_id", JValue.str "r1")]] := by
  have he : handleMCPRequest c3Env c3Request =
      [JValue.obj [("content", JValue.arr [JValue.obj [("type", JValue.str "text"),
          ("text", JValue.str "\x7b\"content\":null\x7d")]]),
        ("request_id", JValue.str "r1")]] := rfl
  refine ⟨rfl, rfl, he, ?_⟩
  rw [he]
  intro h
  simp at h

/-- C3 (amended): for every well-formed `tool_call` whose resolved tool's
execution succeeds with a non-`null`/`undefined` result, the emitted
success envelope is the result itself merged with the request's
`request_id` when the result's `content` field is truthy, and otherwise a
fresh envelope whose `content` is the single-element array
`[\x7btype: 'text', text: JSON.stringify(result)\x7d]`; in both cases the
envelope's `request_id` equals the originating request's `request_id`.
(A result carrying a falsy `content` — `null`, `false`, `0`, `""` — is
wrapped, not passed through; a `null` result makes the `.content` access
throw, which the catch handler turns into an error envelope instead.) -/
theorem c3_amended_success_envelope (env : Env) (request : JValue) (name : String)
    (tool : Operation) (result : JValue)
    (hwf : isWellFormedMCPRequest request = true)
    (htype : request.getField "type" = some (.str "tool_call"))
    (hname : request.getField "name" = some (.str name))
    (htool : env.tools name = some tool)
    (hval : (match tool.validate with
             | some f => (f ((request.getField "parameters").getD .null)).valid
             | none => true) = true)
    (hexec : tool.execute ((request.getField "parameters").getD .null) = .ok result)
    (hnn : result ≠ .null) :
    handleMCPRequest env request =
      [if ((result.getField "content").getD .null).truthy then
         objSet result "request_id" ((request.getField "request_id").getD .null)
       else
         .obj [("content", .arr [.obj [("type", .str "text"),
             ("text", .str (stringify result))]]),
           ("request_id", (request.getField "request_id").getD .null)]] := by
  rw [handleMCPRequest_tool_route env request hwf htype]
  unfold handleToolCall
  dsimp only
  simp only [hname, Option.getD_some]
  simp only [htool]
  rcases hvd : tool.validate with _ | f
  · simp only [hexec, Bool.not_true, Bool.false_eq_true, if_false]
    unfold resolveThen
    cases result with
    | null => exact absurd rfl hnn
    | bool b => rfl
    | num n => rfl
    | str s => rfl
    | arr xs => rfl
    | obj fields =>
      dsimp only
      split <;> rfl
  · simp only [hvd] at hval
    simp only [hval, hexec, Bool.not_true, Bool.false_eq_true, if_false]
    unfold resolveThen
    cases result with
    | null => exact absurd rfl hnn
    | bool b => rfl
    | num n => rfl
    | str s => rfl
    | arr xs => rfl
    | obj fields =>
      dsimp only
      split <;> rfl

/-- A tool whose execution fulfills with a content-shaped result carrying
an extra field (to witness unchanged pass-through). -/
def c3PassTool : Operation :=
  ⟨"t", none, fun _ => .ok (.obj [("content", .str "ok"), ("extra", .num 7)])⟩

def c3PassEnv : Env :=
  ⟨fun n => if n = "t" then some c3PassTool else none, fun _ => none⟩

/-- C3 witness: the amended theorem at a concrete pass-through execution —
the result (extra field included) flows through unchanged, with the
request's id merged in. -/
theorem c3_amended_witness :
    isWellFormedMCPRequest c3Request = true ∧
    handleMCPRequest c3PassEnv c3Request =
      [JValue.obj [("content", JValue.str "ok"), ("extra", JValue.num 7),
        ("request_id", JValue.str "r1")]] := by
  refine ⟨rfl, ?_⟩
  have h := c3_amended_success_envelope c3PassEnv c3Request "t" c3PassTool
    (.obj [("content", .str "ok"), ("extra", .num 7)]) rfl rfl rfl rfl rfl rfl (by simp)
  exact h

/-! ### Claim C4 -/

/-- A thrown value flagged as an authentication error, carrying structured
`details` with its own code and message (the shape the API client rejects
with). -/
def c4AuthThrown : Thrown :=
  ⟨true, [("type", .str "authentication"),
    ("details", .obj [("code", .str "auth_failed"), ("message", .str "No key")])],
   false, ""⟩

/-- A prompt whose execution rejects with the authentication-flagged
error. -/
def c4Prompt : Operation := ⟨"p", none, fun _ => .rejected c4AuthThrown⟩

def c4Env : Env := ⟨fun _ => none, fun n => if n = "p" then some c4Prompt else none⟩

def c4Request : JValue :=
  .obj [("type", .str "prompt_call"), ("name", .str "p"),
        ("request_id", .str "r1"), ("parameters", .obj [])]

/-- C4 counterexample: a resolved prompt's execution rejects with an
authentication-flagged error carrying structured `details` — the claim
("tool_call or prompt_call alike") predicts a `validation` envelope with
the nested code `auth_failed` — but `handlePromptCall`'s catch handler
always emits `execution`/`prompt_error` and never reads `details`. -/
theorem c4_counterexample :
    c4AuthThrown.fields.lookup "type" = some (.str "authentication") ∧
    c4AuthThrown.fields.lookup "details" =
      some (.obj [("code", .str "auth_failed"), ("message", .str "No key")]) ∧
    c4Prompt.execute (.obj []) = .rejected c4AuthThrown ∧
    (handleMCPRequest c4Env c4Request).map responseErrorType = [some (.str "execution")] ∧
    (handleMCPRequest c4Env c4Request).map responseErrorCode = [some (.str "prompt_error")] ∧
    some (JValue.str "execution") ≠ some (JValue.str "validation") ∧
    some (JValue.str "prompt_error") ≠ some (JValue.str "auth_failed") := by
  refine ⟨rfl, rfl, rfl, rfl, rfl, by simp, by simp⟩

/-- C4 (amended): a rejected execution of a resolved tool yields exactly the
tool catch envelope — whose error type is `validation` when the thrown
error is a truthy object carrying `type = 'authentication'` and `execution`
otherwise, and whose code/message are copied out of the thrown error's
structured `details` when that is a truthy object carrying them, with
fallbacks `tool_error` and the error's plain message text.  A rejected
execution of a resolved prompt instead always yields the prompt catch
envelope: error type `execution`, code `prompt_error`, and the plain
message text — the authentication remapping and `details` copying apply to
tool calls only. -/
theorem c4_amended_rejected_execution (env : Env) (request : JValue) (name : String)
    (op : Operation) (e : Thrown)
    (hwf : isWellFormedMCPRequest request = true)
    (hname : request.getField "name" = some (.str name))
    (hval : (match op.validate with
             | some f => (f ((request.getField "parameters").getD .null)).valid
             | none => true) = true)
    (hexec : op.execute ((request.getField "parameters").getD .null) = .rejected e) :
    (request.getField "type" = some (.str "tool_call") → env.tools name = some op →
      handleMCPRequest env request =
        [toolCatchEnvelope e ((request.getField "request_id").getD .null)]) ∧
    (request.getField "type" = some (.str "prompt_call") → env.prompts name = some op →
      handleMCPRequest env request =
        [promptCatchEnvelope e ((request.getField "request_id").getD .null)]) ∧
    (∀ (e2 : Thrown) (rid : JValue),
      responseErrorType (toolCatchEnvelope e2 rid) =
        some (.str (if e2.isObject && (match e2.fields.lookup "type" with
            | some (.str s) => s == "authentication"
            | _ => false)
          then "validation" else "execution"))) ∧
    (∀ (e2 : Thrown) (rid : JValue) (d c m : JValue),
      e2.isObject = true → e2.fields.lookup "details" = some d →
      (d.truthy && d.jsTypeof == "object") = true →
      d.getField "code" = some c → d.getField "message" = some m →
      responseErrorCode (toolCatchEnvelope e2 rid) = some (.str (jsString c)) ∧
      responseErrorMessage (toolCatchEnvelope e2 rid) = some (.str (jsString m))) ∧
    (∀ (e2 : Thrown) (rid : JValue),
      e2.isObject = false ∨ e2.fields.lookup "details" = none →
      responseErrorCode (toolCatchEnvelope e2 rid) = some (.str "tool_error") ∧
      responseErrorMessage (toolCatchEnvelope e2 rid) =
        some (.str (if e2.isError then e2.message else "Unknown error"))) ∧
    (∀ (e2 : Thrown) (rid : JValue),
      responseErrorType (promptCatchEnvelope e2 rid) = some (.str "execution") ∧
      responseErrorCode (promptCatchEnvelope e2 rid) = some (.str "prompt_error") ∧
      responseErrorMessage (promptCatchEnvelope e2 rid) =
        some (.str (if e2.isError then e2.message else "Unknown error"))) := by
  refine ⟨?_, ?_, ?_, ?_, ?_, ?_⟩
  · intro htype htool
    rw [handleMCPRequest_tool_route env request hwf htype]
    unfold handleToolCall
    dsimp only
    simp only [hname, Option.getD_some]
    simp only [htool]
    rcases hvd : op.validate with _ | f
    · simp only [hexec, Bool.not_true, Bool.false_eq_true, if_false]
    · simp only [hvd] at hval
      simp only [hval, hexec, Bool.not_true, Bool.false_eq_true, if_false]
  · intro htype hprompt
    rw [handleMCPRequest_prompt_route env request hwf htype]
    unfold handlePromptCall
    dsimp only
    simp only [hname, Option.getD_some]
    simp only [hprompt]
    rcases hvd : op.validate with _ | f
    · simp only [hexec, Bool.not_true, Bool.false_eq_true, if_false]
    · simp only [hvd] at hval
      simp only [hval, hexec, Bool.not_true, Bool.false_eq_true, if_false]
  · intro e2 rid
    rfl
  · intro e2 rid d c m he2 hd hdo hc hm
    unfold toolCatchEnvelope
    simp [he2, hd, hc, hm, hdo, JValue.hasField,
      responseErrorCode_errorEnvelope, responseErrorMessage_errorEnvelope]
  · intro e2 rid hnone
    rcases hnone with he2 | hd
    · unfold toolCatchEnvelope
      simp [he2, JValue.truthy, responseErrorCode_errorEnvelope,
        responseErrorMessage_errorEnvelope]
    · unfold toolCatchEnvelope
      simp [hd, JValue.truthy, responseErrorCode_errorEnvelope,
        responseErrorMessage_errorEnvelope]
  · intro e2 rid
    exact ⟨rfl, rfl, rfl⟩

/-- A tool rejecting with the same authentication-flagged error, to witness
the tool-side remapping. -/
def c4Tool : Operation := ⟨"t", none, fun _ => .rejected c4AuthThrown⟩

def c4ToolEnv : Env := ⟨fun n => if n = "t" then some c4Tool else none, fun _ => none⟩

def c4ToolRequest : JValue :=
  .obj [("type", .str "tool_call"), ("name", .str "t"),
        ("request_id", .str "r1"), ("parameters", .obj [])]

/-- C4 witness: the amended theorem at concrete inputs — the tool-side
rejection with the authentication-flagged, details-carrying error is
emitted as `validation`/`auth_failed`/`No key`, while the prompt-side
rejection of the very same error is emitted as
`execution`/`prompt_error`. -/
theorem c4_amended_witness :
    handleMCPRequest c4ToolEnv c4ToolRequest =
      [errorEnvelope "validation" "auth_failed" "No key" none (.str "r1")] ∧
    handleMCPRequest c4Env c4Request =
      [errorEnvelope "execution" "prompt_error" "Unknown error" none (.str "r1")] := by
  constructor
  · have h := (c4_amended_rejected_execution c4ToolEnv c4ToolRequest "t" c4Tool
      c4AuthThrown rfl rfl rfl rfl).1 rfl rfl
    exact h
  · have h := (c4_amended_rejected_execution c4Env c4Request "p" c4Prompt
      c4AuthThrown rfl rfl rfl rfl).2.1 rfl rfl
    exact h

/-! ### Claim C5 -/

/-- C5: for every well-formed envelope whose name is not registered in the
applicable registry (tools for `tool_call`, prompts for `prompt_call`), the
dispatcher emits exactly one `transport` error envelope with code
`tool_not_found` (resp. `prompt_not_found`), message
`Tool not found: <name>` (resp. `Prompt not found: <name>`), and the
request's own `request_id` — and nothing else: the single emitted response
is that error, so no execution output ever appears. -/
theorem c5_unknown_operation_not_found (env : Env) (request : JValue) (name : String)
    (hwf : isWellFormedMCPRequest request = true)
    (hname : request.getField "name" = some (.str name)) :
    (request.getField "type" = some (.str "tool_call") → env.tools name = none →
      handleMCPRequest env request =
        [errorEnvelope "transport" "tool_not_found" ("Tool not found: " ++ name) none
          ((request.getField "request_id").getD .null)]) ∧
    (request.getField "type" = some (.str "prompt_call") → env.prompts name = none →
      handleMCPRequest env request =
        [errorEnvelope "transport" "prompt_not_found" ("Prompt not found: " ++ name) none
          ((request.getField "request_id").getD .null)]) := by
  constructor
  · intro htype htool
    rw [handleMCPRequest_tool_route env request hwf htype]
    unfold handleToolCall
    dsimp only
    simp only [hname, Option.getD_some]
    simp only [htool]
    rfl
  · intro htype hprompt
    rw [handleMCPRequest_prompt_route env request hwf htype]
    unfold handlePromptCall
    dsimp only
    simp only [hname, Option.getD_some]
    simp only [hprompt]
    rfl

/-- End-to-end scenario 1 of the spec: a `tool_call` for `get_tags` with no
registered handler. -/
def c5Request : JValue :=
  .obj [("type", .str "tool_call"), ("name", .str "get_tags"),
        ("request_id", .str "r1"), ("parameters", .obj [])]

/-- C5 witness: the theorem at the spec's end-to-end scenario 1. -/
theorem c5_witness :
    handleMCPRequest emptyEnv c5Request =
      [errorEnvelope "transport" "tool_not_found" "Tool not found: get_tags" none
        (.str "r1")] := by
  have h := (c5_unknown_operation_not_found emptyEnv c5Request "get_tags" rfl rfl).1 rfl rfl
  exact h

/-! ### Claim C6 -/

/-- C6: for every resolved operation whose validator reports invalid on the
request's parameters, the dispatcher emits exactly one
`validation`/`invalid_parameters` envelope whose `errors` array holds one
string per reported validation error, formatted `<field>: <message>`; and
for every resolved operation that supplies no validator, parameters are
accepted unconditionally and execution proceeds (the single emitted
response is determined by the execution outcome alone). -/
theorem c6_parameter_validation (env : Env) (request : JValue) (name : String)
    (op : Operation)
    (hwf : isWellFormedMCPRequest request = true)
    (hname : request.getField "name" = some (.str name)) :
    (request.getField "type" = some (.str "tool_call") → env.tools name = some op →
      (∀ f, op.validate = some f →
        (f ((request.getField "parameters").getD .null)).valid = false →
        handleMCPRequest env request =
          [errorEnvelope "validation" "invalid_parameters" "Invalid parameters"
            (some ((f ((request.getField "parameters").getD .null)).errors.map
              fun e => e.field ++ ": " ++ e.message))
            ((request.getField "request_id").getD .null)]) ∧
      (op.validate = none →
        handleMCPRequest env request =
          [match op.execute ((request.getField "parameters").getD .null) with
           | .ok result =>
             resolveThen (toolCatchEnvelope · ((request.getField "request_id").getD .null))
               result ((request.getField "request_id").getD .null)
           | .rejected e =>
             toolCatchEnvelope e ((request.getField "request_id").getD .null)])) ∧
    (request.getField "type" = some (.str "prompt_call") → env.prompts name = some op →
      (∀ f, op.validate = some f →
        (f ((request.getField "parameters").getD .null)).valid = false →
        handleMCPRequest env request =
          [errorEnvelope "validation" "invalid_parameters" "Invalid parameters"
            (some ((f ((request.getField "parameters").getD .null)).errors.map
              fun e => e.field ++ ": " ++ e.message))
            ((request.getField "request_id").getD .null)]) ∧
      (op.validate = none →
        handleMCPRequest env request =
          [match op.execute ((request.getField "parameters").getD .null) with
           | .ok result =>
             resolveThen (promptCatchEnvelope · ((request.getField "request_id").getD .null))
               result ((request.getField "request_id").getD .null)
           | .rejected e =>
             promptCatchEnvelope e ((request.getField "request_id").getD .null)])) := by
  constructor
  · intro htype htool
    constructor
    · intro f hvd hinvalid
      rw [handleMCPRequest_tool_route env request hwf htype]
      unfold handleToolCall
      dsimp only
      simp only [hname, Option.getD_some]
      simp only [htool, hvd, hinvalid]
      rfl
    · intro hvd
      rw [handleMCPRequest_tool_route env request hwf htype]
      unfold handleToolCall
      dsimp only
      simp only [hname, Option.getD_some]
      simp only [htool, hvd, Bool.not_true, Bool.false_eq_true, if_false]
      cases op.execute ((request.getField "parameters").getD JValue.null) <;> rfl
  · intro htype hprompt
    constructor
    · intro f hvd hinvalid
      rw [handleMCPRequest_prompt_route env request hwf htype]
      unfold handlePromptCall
      dsimp only
      simp only [hname, Option.getD_some]
      simp only [hprompt, hvd, hinvalid]
      rfl
    · intro hvd
      rw [handleMCPRequest_prompt_route env request hwf htype]
      unfold handlePromptCall
      dsimp only
      simp only [hname, Option.getD_some]
      simp only [hprompt, hvd, Bool.not_true, Bool.false_eq_true, if_false]
      cases op.execute ((request.getField "parameters").getD JValue.null) <;> rfl

/-- A tool whose validator reports two field errors on every input. -/
def c6Tool : Operation :=
  ⟨"t", some (fun _ => ⟨false, [⟨"page", "must be positive"⟩,
    ⟨"category", "unknown value"⟩]⟩), fun _ => .ok (.obj [])⟩

/-- A tool with no validator, fulfilling with a bare number. -/
def c6FreeTool : Operation := ⟨"u", none, fun _ => .ok (.num 5)⟩

def c6Env : Env :=
  ⟨fun n => if n = "t" then some c6Tool else if n = "u" then some c6FreeTool else none,
   fun _ => none⟩

def c6Request : JValue :=
  .obj [("type", .str "tool_call"), ("name", .str "t"),
        ("request_id", .str "r1"), ("parameters", .obj [])]

def c6FreeRequest : JValue :=
  .obj [("type", .str "tool_call"), ("name", .str "u"),
        ("request_id", .str "r2"), ("parameters", .obj [])]

/-- C6 witness: the theorem at concrete inputs — a failing validator yields
the two formatted `<field>: <message>` strings; a validator-less tool goes
straight to execution and its bare result is wrapped as serialized text. -/
theorem c6_witness :
    handleMCPRequest c6Env c6Request =
      [errorEnvelope "validation" "invalid_parameters" "Invalid parameters"
        (some ["page: must be positive", "category: unknown value"]) (.str "r1")] ∧
    handleMCPRequest c6Env c6FreeRequest =
      [JValue.obj [("content", .arr [.obj [("type", .str "text"), ("text", .str "5")]]),
        ("request_id", .str "r2")]] := by
  constructor
  · have h := ((c6_parameter_validation c6Env c6Request "t" c6Tool rfl rfl).1 rfl rfl).1
      (fun _ => ⟨false, [⟨"page", "must be positive"⟩, ⟨"category", "unknown value"⟩]⟩)
      rfl rfl
    exact h
  · have h := ((c6_parameter_validation c6Env c6FreeRequest "u" c6FreeTool rfl rfl).1
      rfl rfl).2 rfl
    exact h

/-! ### Claim C7 -/

/-- One stdin delivery carrying two complete newline-separated JSON
documents. -/
def c7TwoLines : String := "\x7b\"a\":1\x7d\n\x7b\"b\":2\x7d"

/-- C7 counterexample: each of the two lines of `c7TwoLines` is on its own
a complete JSON document, yet delivering both in one stdin chunk yields a
single `transport`/`invalid_request` envelope with request id `"unknown"`
— one response, not the two independent dispatches the claim predicts —
because the handler trims the whole chunk and hands it to one `JSON.parse`
call instead of splitting it at newlines. -/
theorem c7_counterexample :
    (parseJSON "\x7b\"a\":1\x7d").isSome = true ∧
    (parseJSON "\x7b\"b\":2\x7d").isSome = true ∧
    stdioDataHandler emptyEnv c7TwoLines =
      [errorEnvelope "transport" "invalid_request" jsonSyntaxErrorMessage none
        (.str "unknown")] ∧
    (stdioDataHandler emptyEnv c7TwoLines).length = 1 ∧ (1 : Nat) ≠ 2 := by
  exact ⟨rfl, rfl, rfl, rfl, by decide⟩

/-- C7 (amended): the stdio data handler treats each delivery as a single
JSON document: an all-whitespace delivery is ignored; a delivery whose
trimmed text parses is dispatched exactly once, its responses written out;
a delivery whose trimmed text fails to parse (including a delivery holding
two complete JSON lines) yields exactly one `transport`/`invalid_request`
envelope with the sentinel request id `"unknown"`. -/
theorem c7_amended_single_document_per_delivery (env : Env) (data : String) :
    (jsTrim data = "" → stdioDataHandler env data = []) ∧
    (∀ v, parseJSON (jsTrim data) = some v →
      stdioDataHandler env data = handleMCPRequest env v) ∧
    (jsTrim data ≠ "" → parseJSON (jsTrim data) = none →
      stdioDataHandler env data =
        [errorEnvelope "transport" "invalid_request" jsonSyntaxErrorMessage none
          (.str "unknown")]) := by
  unfold stdioDataHandler
  dsimp only
  refine ⟨?_, ?_, ?_⟩
  · intro h
    rw [h]
    rfl
  · intro v hv
    by_cases h : jsTrim data = ""
    · rw [h] at hv
      have h0 : parseJSON "" = none := rfl
      rw [h0] at hv
      exact Option.noConfusion hv
    · rw [if_neg h, hv]
  · intro hne hnone
    rw [if_neg hne, hnone]

/-- C7 witness: the amended theorem at the delivery `"not json"`, which
fails to parse and produces the single `"unknown"` error line. -/
theorem c7_amended_witness :
    jsTrim "not json" ≠ "" ∧ parseJSON "not json" = none ∧
    stdioDataHandler emptyEnv "not json" =
      [errorEnvelope "transport" "invalid_request" jsonSyntaxErrorMessage none
        (.str "unknown")] := by
  refine ⟨by decide, rfl, ?_⟩
  exact (c7_amended_single_document_per_delivery emptyEnv "not json").2.2 (by decide) rfl

/-! ### Claim C8 -/

/-- An SSE session store with no live sessions (transports indexed by
`Nat`). -/
def c8EmptyStore : String → Option Nat := fun _ => none

/-- C8 counterexample: `POST /messages?sessionId=` supplies a `sessionId`
(the empty string) that matches no stored session — the claim predicts
HTTP 404 `session_not_found` — but the handler's `if (!sessionId)` guard
treats the empty string like an absent parameter and answers HTTP 400
`missing_session_id`. -/
theorem c8_counterexample :
    c8EmptyStore "" = none ∧
    postMessagesHandler c8EmptyStore (some "") =
      .respond 400 (.obj [("error", .obj [("type", .str "validation"),
        ("details", .obj [("code", .str "missing_session_id"),
          ("message", .str "Missing required query parameter: sessionId")])])]) ∧
    (400 : Nat) ≠ 404 := by
  exact ⟨rfl, rfl, by decide⟩

/-- C8 (amended): `POST /messages` answers 400 `validation`/
`missing_session_id` when the `sessionId` query parameter is absent or
empty, 404 `transport`/`session_not_found` when a nonempty `sessionId`
matches no stored session, and hands the message to the matching stored
transport instance otherwise. -/
theorem c8_amended_messages_routing {T : Type} (sseTransports : String → Option T)
    (sessionIdParam : Option String) :
    ((sessionIdParam = none ∨ sessionIdParam = some "") →
      postMessagesHandler sseTransports sessionIdParam =
        .respond 400 (.obj [("error", .obj [("type", .str "validation"),
          ("details", .obj [("code", .str "missing_session_id"),
            ("message", .str "Missing required query parameter: sessionId")])])])) ∧
    (∀ s, sessionIdParam = some s → s ≠ "" → sseTransports s = none →
      postMessagesHandler sseTransports sessionIdParam =
        .respond 404 (.obj [("error", .obj [("type", .str "transport"),
          ("details", .obj [("code", .str "session_not_found"),
            ("message", .str ("No active SSE connection found for sessionId: " ++ s))])])])) ∧
    (∀ s t, sessionIdParam = some s → s ≠ "" → sseTransports s = some t →
      postMessagesHandler sseTransports sessionIdParam = .handled t) := by
  refine ⟨?_, ?_, ?_⟩
  · rintro (h | h) <;> rw [h] <;> rfl
  · intro s hs hne hnone
    rw [hs]
    unfold postMessagesHandler
    dsimp only
    rw [if_neg hne, hnone]
  · intro s t hs hne ht
    rw [hs]
    unfold postMessagesHandler
    dsimp only
    rw [if_neg hne, ht]

/-- A store holding one live session `sse-1` (transport `0`). -/
def c8Store : String → Option Nat := fun s => if s = "sse-1" then some 0 else none

/-- C8 witness: the amended theorem at concrete inputs — a matching
`sessionId` is handled by that session's stored transport, an unknown one
gets 404, an absent one gets 400. -/
theorem c8_amended_witness :
    postMessagesHandler c8Store (some "sse-1") = .handled 0 ∧
    postMessagesHandler c8Store (some "sse-2") =
      .respond 404 (.obj [("error", .obj [("type", .str "transport"),
        ("details", .obj [("code", .str "session_not_found"),
          ("message", .str "No active SSE connection found for sessionId: sse-2")])])]) ∧
    postMessagesHandler c8Store none =
      .respond 400 (.obj [("error", .obj [("type", .str "validation"),
        ("details", .obj [("code", .str "missing_session_id"),
          ("message", .str "Missing required query parameter: sessionId")])])]) := by
  refine ⟨?_, ?_, ?_⟩
  · exact (c8_amended_messages_routing c8Store (some "sse-1")).2.2 "sse-1" 0 rfl
      (by decide) rfl
  · have h := (c8_amended_messages_routing c8Store (some "sse-2")).2.1 "sse-2" rfl
      (by decide) rfl
    exact h
  · exact (c8_amended_messages_routing c8Store none).1 (Or.inl rfl)

/-! ### Claim C9 -/

/-- A value passing `jsStrictEqStr v s` is exactly the string `s`. -/
theorem jsStrictEqStr_eq_true {v : JValue} {s : String}
    (h : jsStrictEqStr v s = true) : v = .str s := by
  cases v <;> simp_all [jsStrictEqStr]

/-- C9: every request that passes envelope validation has `type` equal to
`tool_call` or `prompt_call`, and `handleMCPRequest` routes it to exactly
`handleToolCall` or `handlePromptCall` — the trailing
`invalid_request_type` branch is unreachable for validated requests. -/
theorem c9_validated_type_branch_unreachable (env : Env) (request : JValue)
    (hv : (validateMCPRequest request).valid = true) :
    (request.getField "type" = some (.str "tool_call") ∨
     request.getField "type" = some (.str "prompt_call")) ∧
    (handleMCPRequest env request = handleToolCall env request ∨
     handleMCPRequest env request = handlePromptCall env request) := by
  have hwf : isWellFormedMCPRequest request = true := by
    rw [← validateMCPRequest_valid_eq]
    exact hv
  have h5 : jsStrictEqStr ((request.getField "type").getD .null) "tool_call" = true ∨
      jsStrictEqStr ((request.getField "type").getD .null) "prompt_call" = true := by
    cases hA : jsStrictEqStr ((request.getField "type").getD .null) "tool_call" with
    | true => exact Or.inl rfl
    | false =>
      cases hB : jsStrictEqStr ((request.getField "type").getD .null) "prompt_call" with
      | true => exact Or.inr rfl
      | false =>
        exfalso
        have hfalse : isWellFormedMCPRequest request = false := by
          unfold isWellFormedMCPRequest
          simp [hA, hB]
        rw [hfalse] at hwf
        exact Bool.noConfusion hwf
  have htv : request.getField "type" = some (.str "tool_call") ∨
      request.getField "type" = some (.str "prompt_call") := by
    rcases h5 with h | h
    · left
      rcases hgf : request.getField "type" with _ | w
      · rw [hgf] at h
        simp [jsStrictEqStr] at h
      · rw [hgf, Option.getD_some] at h
        rw [jsStrictEqStr_eq_true h]
    · right
      rcases hgf : request.getField "type" with _ | w
      · rw [hgf] at h
        simp [jsStrictEqStr] at h
      · rw [hgf, Option.getD_some] at h
        rw [jsStrictEqStr_eq_true h]
  refine ⟨htv, ?_⟩
  rcases htv with h | h
  · exact Or.inl (handleMCPRequest_tool_route env request hwf h)
  · exact Or.inr (handleMCPRequest_prompt_route env request hwf h)

def c9Request : JValue :=
  .obj [("type", .str "tool_call"), ("name", .str "x"),
        ("request_id", .str "r9"), ("parameters", .obj [])]

/-- C9 witness: the theorem at a concrete validated request. -/
theorem c9_witness :
    (validateMCPRequest c9Request).valid = true ∧
    ((c9Request.getField "type" = some (.str "tool_call") ∨
      c9Request.getField "type" = some (.str "prompt_call")) ∧
     (handleMCPRequest emptyEnv c9Request = handleToolCall emptyEnv c9Request ∨
      handleMCPRequest emptyEnv c9Request = handlePromptCall emptyEnv c9Request)) :=
  ⟨rfl, c9_validated_type_branch_unreachable emptyEnv c9Request rfl⟩

/-! ### Claim C10 -/

/-- The middleware's outcome factors through the effectively-carried token:
OPTIONS passes, a falsy extraction gets 401, a wrong token 403, the
configured token passes. -/
theorem createAuthMiddleware_eq (authToken method : String)
    (authorizationHeader queryToken : Option String) :
    createAuthMiddleware authToken method authorizationHeader queryToken =
      if method = "OPTIONS" then .next
      else
        match extractedToken authorizationHeader queryToken with
        | none => .reject 401 authRequiredMessage
        | some t =>
          if t = authToken then .next
          else .reject 403 "Invalid authentication token." := by
  unfold createAuthMiddleware extractedToken
  dsimp only
  by_cases hm : method = "OPTIONS"
  · simp [hm]
  · simp only [if_neg hm]
    rcases authorizationHeader with _ | h
    · rcases queryToken with _ | q
      · rfl
      · by_cases hq : q = "" <;> simp [hq]
    · by_cases hb : jsStartsWith h "Bearer " = true
      · by_cases hd : h.drop 7 = ""
        · rcases queryToken with _ | q
          · simp [hb, hd]
          · by_cases hq : q = "" <;> simp [hb, hd, hq]
        · simp [hb, hd]
      · rcases queryToken with _ | q
        · simp [hb]
        · by_cases hq : q = "" <;> simp [hb, hq]

/-- C10: with a server auth token configured, the middleware on
`/sse`, `/messages` and `/mcp` passes every OPTIONS request through with no
token check; every non-OPTIONS request carrying no token (none extractable
from the `Bearer` header or the `token` query parameter) gets 401; and
every non-OPTIONS request whose carried token differs from the configured
token — equality here being the byte-length check plus the constant-time
byte comparison, so any length difference is a mismatch — gets 403. -/
theorem c10_auth_middleware (authToken method : String)
    (authorizationHeader queryToken : Option String) :
    (method = "OPTIONS" →
      createAuthMiddleware authToken method authorizationHeader queryToken = .next) ∧
    (method ≠ "OPTIONS" → extractedToken authorizationHeader queryToken = none →
      createAuthMiddleware authToken method authorizationHeader queryToken =
        .reject 401 authRequiredMessage) ∧
    (∀ t, method ≠ "OPTIONS" → extractedToken authorizationHeader queryToken = some t →
      t ≠ authToken →
      createAuthMiddleware authToken method authorizationHeader queryToken =
        .reject 403 "Invalid authentication token.") := by
  refine ⟨?_, ?_, ?_⟩
  · intro h
    rw [createAuthMiddleware_eq, if_pos h]
  · intro hm hx
    rw [createAuthMiddleware_eq, if_neg hm, hx]
  · intro t hm hx hne
    rw [createAuthMiddleware_eq, if_neg hm, hx]
    dsimp only
    rw [if_neg hne]

/-- C10 witness: the theorem at concrete requests — an OPTIONS preflight
passes untouched, a tokenless GET gets 401, and a wrong (shorter) bearer
token gets 403. -/
theorem c10_witness :
    createAuthMiddleware "secret" "OPTIONS" none none = .next ∧
    createAuthMiddleware "secret" "GET" none none = .reject 401 authRequiredMessage ∧
    extractedToken (some "Bearer wrong") none = some "wrong" ∧
    createAuthMiddleware "secret" "POST" (some "Bearer wrong") none =
      .reject 403 "Invalid authentication token." := by
  refine ⟨?_, ?_, rfl, ?_⟩
  · exact (c10_auth_middleware "secret" "OPTIONS" none none).1 rfl
  · exact (c10_auth_middleware "secret" "GET" none none).2.1 (by decide) rfl
  · exact (c10_auth_middleware "secret" "POST" (some "Bearer wrong") none).2.2 "wrong"
      (by decide) rfl (by decide)

end ReadwiseMCP
